import Mathlib

/-!
Shallow embedding of the multitude_bot RSS-notification bot
(src/src/main.rs together with the schema in
src/migration/src/m20231104_000001_create_table.rs).

Timestamps are modelled as integers (the chrono NaiveDateTime total order),
with 0 standing for the Unix epoch, which is the value produced by
DateTime default in Rust, hence by unwrap_or_default on a failed parse.
External effects (HTTP fetch, Telegram delivery, database update success)
are passed in as explicit oracle arguments so that the control flow of the
Rust source can be reproduced as a pure function.
-/

namespace MultitudeBot

abbrev Timestamp := Int

/-- The value substituted by unwrap_or_default when an item has no
parsable pub_date: the default DateTime, i.e. the Unix epoch. -/
def epochDefault : Timestamp := 0

/-- One RSS item as consumed by check_for_updates.  The field
pubDateParsed is the result of rfc822_sanitizer parse_from_rfc2822_with_fallback
applied to the item pub_date string: none when the pub_date is missing
(parsing the empty string fails) or unparsable, some t otherwise. -/
structure Item where
  pubDateParsed : Option Timestamp
  title : Option String
  link : Option String
deriving DecidableEq, Repr

/-- A row of the feed table (entity feed::Model): id, chat_id, link (url),
title, created_at, updated_at, as created by the migration. -/
structure Feed where
  id : Int
  chat_id : Int
  link : String
  title : String
  created_at : Timestamp
  updated_at : Timestamp
deriving DecidableEq, Repr

/-- A row of the chat table (entity chat::Model). -/
structure Chat where
  id : Int
  created_at : Timestamp
deriving DecidableEq, Repr

/-- published_date as computed in check_for_updates:
item.pub_date().unwrap_or_default() parsed with fallback, then
unwrap_or_default, i.e. the parsed timestamp or the epoch default. -/
def resolvedDate (i : Item) : Timestamp :=
  i.pubDateParsed.getD epochDefault

/-- The message body built in check_for_updates for one new item:
italic feed title on one line, then an anchor with the item link and title. -/
def formatMessage (feedTitle : String) (i : Item) : String :=
  "<i>" ++ feedTitle ++ "</i>\n"
    ++ "<a href=\x27" ++ i.link.getD "" ++ "\x27>" ++ i.title.getD "" ++ "</a>\n"

/-- One bot.send_message attempt recorded during a sweep: destination chat,
message text, and whether the Telegram call succeeded (the source only logs
a failure and keeps going). -/
structure NotifAttempt where
  chatId : Int
  message : String
  delivered : Bool
deriving DecidableEq, Repr

/-- The max_update_time accumulator step of check_for_updates:
if max_update_time.is_none() or published_date > max_update_time.unwrap()
then max_update_time = Some(published_date). -/
def mergeMax (m : Option Timestamp) (d : Timestamp) : Option Timestamp :=
  match m with
  | none => some d
  | some mm => if mm < d then some d else some mm

/-- The inner item loop of check_for_updates for one feed: iterate the
channel items in document order; for an item whose resolvedDate is
strictly greater than feed.updated_at, attempt a send (outcome given by
the sendOk oracle, indexed by attempt count k) and fold the date into
max_update_time; other items are skipped.  Returns the list of attempts
in the order they were made and the final max_update_time. -/
def processItems (f : Feed) (sendOk : Nat → Bool) (k : Nat) (m : Option Timestamp) :
    List Item → List NotifAttempt × Option Timestamp
  | [] => ([], m)
  | i :: rest =>
    let d := resolvedDate i
    if f.updated_at < d then
      let att : NotifAttempt := ⟨f.chat_id, formatMessage f.title i, sendOk k⟩
      let r := processItems f sendOk (k + 1) (mergeMax m d) rest
      (att :: r.1, r.2)
    else
      processItems f sendOk k m rest

/-- The commit step of check_for_updates: if max_update_time is Some and
greater than feed.updated_at, write it back (the database update may fail,
oracle dbOk, in which case the row keeps its old value); otherwise the row
is untouched.  Returns the updated_at value of the row after the step. -/
def commitWatermark (f : Feed) (m : Option Timestamp) (dbOk : Bool) : Timestamp :=
  match m with
  | none => f.updated_at
  | some mx => if f.updated_at < mx then (if dbOk then mx else f.updated_at) else f.updated_at

/-- The items of a document that check_for_updates treats as new for feed f:
those whose resolved date is strictly greater than the stored updated_at. -/
def newItems (f : Feed) (items : List Item) : List Item :=
  items.filter (fun i => f.updated_at < resolvedDate i)

/-- Outcome of fetching and decoding one feed url in check_for_updates:
reqwest::get error, bytes() error, Channel::read_from error, or the
decoded item list. -/
inductive FetchResult where
  | fetchErr (msg : String)
  | readErr (msg : String)
  | parseErr (msg : String)
  | ok (items : List Item)
deriving DecidableEq, Repr

/-- Processing of one feed inside the sweep loop: any fetch, read or parse
error is logged and the loop continues (no attempts, updated_at untouched);
otherwise the item loop runs and the watermark commit follows. -/
def sweepFeed (f : Feed) (r : FetchResult) (sendOk : Nat → Bool) (dbOk : Bool) :
    List NotifAttempt × Timestamp :=
  match r with
  | .ok items =>
    let p := processItems f sendOk 0 none items
    (p.1, commitWatermark f p.2 dbOk)
  | _ => ([], f.updated_at)

/-- The sweep loop of check_for_updates over the stored feed list, with the
per-url fetch, delivery and database-commit oracles.  Each feed is mapped to
its recorded attempts and its updated_at after the iteration. -/
def sweep (fetch : String → FetchResult) (sendOk : String → Nat → Bool)
    (dbOk : String → Bool) : List Feed → List (Feed × List NotifAttempt × Timestamp)
  | [] => []
  | f :: rest =>
    (f, sweepFeed f (fetch f.link) (sendOk f.link) (dbOk f.link))
      :: sweep fetch sendOk dbOk rest

/-- Store-level errors of interest, the engine-native errors of the two
failing paths the schema can produce: a primary-key conflict on chat insert
and a foreign-key violation on chat delete (the migration declares
ForeignKey-Feed-Chat with no ON DELETE action, so the SQL default NO ACTION
applies). -/
inductive DbErr where
  | duplicateKey
  | foreignKeyViolation
deriving DecidableEq, Repr

/-- Rendering of a store error as interpolated into the bot replies. -/
def dbErrMsg : DbErr → String
  | .duplicateKey => "duplicate key value violates unique constraint"
  | .foreignKeyViolation => "violates foreign key constraint"

/-- The database state: the chat table and the feed table.  The list order
of feeds models the row order the engine returns for an unordered SELECT;
none of the queries in main.rs adds an ORDER BY clause, so this order is
not constrained by the source. -/
structure Db where
  chats : List Chat
  feeds : List Feed
deriving DecidableEq, Repr

/-- Chat::find_by_id(id).one(&db). -/
def chatFindById (db : Db) (id : Int) : Option Chat :=
  db.chats.find? (fun c => c.id == id)

/-- The is_not_subscribed dptree filter: on a store failure the source
calls expect, i.e. panics the handler task (modelled as the error branch
of the result, carrying the expect message); otherwise it returns whether
the chat row is absent. -/
def is_not_subscribed (findRes : Except String (Option Chat)) : Except String Bool :=
  match findRes with
  | .error _ => .error "Database Error"
  | .ok c => .ok c.isNone

/-- create_chat: insert a chat row with the given id; created_at is filled
by the store default current_timestamp, passed here as now.  The id column
is the primary key, so an insert with an id already present fails with a
unique-constraint error and leaves the state unchanged. -/
def create_chat (db : Db) (chat_id : Int) (now : Timestamp) : Db × Except DbErr Chat :=
  if db.chats.any (fun c => c.id == chat_id) then
    (db, .error .duplicateKey)
  else
    let c : Chat := ⟨chat_id, now⟩
    (⟨db.chats ++ [c], db.feeds⟩, .ok c)

/-- delete_chat: Chat::delete_by_id(id).exec(&db).  Only the chat row is
addressed; the migration declares the feed-to-chat foreign key with no ON
DELETE action, so when feed rows still reference the chat the delete is
rejected by the engine with a foreign-key violation and nothing changes.
Otherwise the chat row (if any) is removed and the affected row count
returned.  No statement deletes the feed rows. -/
def delete_chat (db : Db) (id : Int) : Db × Except DbErr Nat :=
  if db.chats.any (fun c => c.id == id) && db.feeds.any (fun f => f.chat_id == id) then
    (db, .error .foreignKeyViolation)
  else
    (⟨db.chats.filter (fun c => c.id != id), db.feeds⟩,
     .ok (db.chats.countP (fun c => c.id == id)))

/-- read_feed: Feed::find().filter(ChatId eq chat_id).all(&db) — the feed
rows owned by the chat, in the store row order (no ORDER BY is issued). -/
def read_feed (db : Db) (chat_id : Int) : List Feed :=
  db.feeds.filter (fun f => f.chat_id == chat_id)

/-- Feed::find().all(&db), the unscoped listing used by check_for_updates. -/
def listAllFeeds (db : Db) : List Feed :=
  db.feeds

/-- delete_feed: Feed::delete_many() filtered by ChatId eq chat_id and
Id eq id; returns the new state and rows_affected. -/
def delete_feed (db : Db) (id chat_id : Int) : Db × Nat :=
  (⟨db.chats, db.feeds.filter (fun f => !(f.chat_id == chat_id && f.id == id))⟩,
   db.feeds.countP (fun f => f.chat_id == chat_id && f.id == id))

/-- The Unsubscribe reply: format Deleted n feed. -/
def unsubscribeReply (n : Nat) : String :=
  "Deleted " ++ toString n ++ " feed"

/-- The List reply: one id - title line per feed, joined by newlines. -/
def listReply (feeds : List Feed) : String :=
  String.intercalate "\n" (feeds.map (fun f => toString f.id ++ " - " ++ f.title))

/-- The Start success reply of process_logged_out_command. -/
def registerOkReply (c : Chat) : String :=
  "[" ++ toString c.created_at ++ "] Registering your chat with the bot...Done."

/-- The Start failure reply of process_logged_out_command. -/
def registerErrReply (e : String) : String :=
  "[" ++ e ++ "] Error in registering new chat"

/-- The generic error reply of the process_command branches. -/
def errorReply (e : String) : String :=
  "Error: " ++ e

/-- The Unsubscribe branch of process_command, given the store call result:
both outcomes are answered with a reply (ok value); the handler never
panics. -/
def unsubscribeHandler (deleted : Except String Nat) : Except String String :=
  .ok (match deleted with
    | .ok n => unsubscribeReply n
    | .error e => errorReply e)

/-- The Start branch of process_logged_out_command, given the create_chat
result: both outcomes are answered with a reply; the handler never
panics. -/
def registerHandler (created : Except String Chat) : Except String String :=
  .ok (match created with
    | .ok c => registerOkReply c
    | .error e => registerErrReply e)

/-- The accumulator step keeps the running maximum: merging d into some a
yields some (max a d). -/
lemma mergeMax_some (a d : Timestamp) : mergeMax (some a) d = some (max a d) := by
  unfold mergeMax
  rcases lt_or_le a d with h | h
  · simp [h, max_eq_right h.le]
  · simp [not_lt.mpr h, max_eq_left h]

/-- Folding mergeMax from a some start computes the list maximum. -/
lemma foldl_mergeMax_some (l : List Timestamp) :
    ∀ a, l.foldl mergeMax (some a) = some (l.foldl max a) := by
  induction l with
  | nil => intro a; rfl
  | cons d t ih => intro a; simp [List.foldl_cons, mergeMax_some, ih]

/-- The start value never exceeds a max fold. -/
lemma le_foldl_max (l : List Timestamp) : ∀ a : Timestamp, a ≤ l.foldl max a := by
  induction l with
  | nil => intro a; simp
  | cons d t ih => intro a; exact le_trans (le_max_left a d) (ih (max a d))

/-- The final max_update_time of the item loop is the mergeMax fold of the
resolved dates of the new items, whatever the attempt index and the
delivery outcomes. -/
lemma processItems_snd (f : Feed) (s : Nat → Bool) :
    ∀ (items : List Item) (k : Nat) (m : Option Timestamp),
      (processItems f s k m items).2
        = ((newItems f items).map resolvedDate).foldl mergeMax m := by
  intro items
  induction items with
  | nil => intro k m; simp [processItems, newItems]
  | cons i rest ih =>
    intro k m
    by_cases h : f.updated_at < resolvedDate i
    · simp [processItems, h, newItems, List.filter_cons, ih]
    · simp [processItems, h, newItems, List.filter_cons, ih]

/-- The messages attempted by the item loop are exactly the formatted
messages of the new items, in document order. -/
lemma processItems_messages (f : Feed) (s : Nat → Bool) :
    ∀ (items : List Item) (k : Nat) (m : Option Timestamp),
      (processItems f s k m items).1.map NotifAttempt.message
        = (newItems f items).map (formatMessage f.title) := by
  intro items
  induction items with
  | nil => intro k m; simp [processItems, newItems]
  | cons i rest ih =>
    intro k m
    by_cases h : f.updated_at < resolvedDate i
    · simp [processItems, h, newItems, List.filter_cons, ih]
    · simp [processItems, h, newItems, List.filter_cons, ih]

/-- Membership in the new-item selection. -/
lemma mem_newItems (f : Feed) (items : List Item) (i : Item) :
    i ∈ newItems f items ↔ i ∈ items ∧ f.updated_at < resolvedDate i := by
  simp [newItems]

/-- The committed watermark after the item loop is the max fold of the
resolved dates of the new items over the stored updated_at. -/
lemma commitWatermark_processItems (f : Feed) (s : Nat → Bool) (items : List Item) :
    commitWatermark f (processItems f s 0 none items).2 true
      = ((newItems f items).map resolvedDate).foldl max f.updated_at := by
  rw [processItems_snd]
  rcases hne : (newItems f items).map resolvedDate with _ | ⟨d, l⟩
  · rfl
  · have hd : f.updated_at < d := by
      have hmem : d ∈ (newItems f items).map resolvedDate := by
        rw [hne]; exact List.mem_cons_self d l
      rcases List.mem_map.mp hmem with ⟨i, hi, rfl⟩
      exact ((mem_newItems f items i).mp hi).2
    have hle : d ≤ l.foldl max d := le_foldl_max l d
    simp [List.foldl_cons, mergeMax, foldl_mergeMax_some, commitWatermark,
      lt_of_lt_of_le hd hle, max_eq_right hd.le]

/-- The watermark commit never lowers updated_at. -/
lemma le_commitWatermark (f : Feed) (m : Option Timestamp) (dbOk : Bool) :
    f.updated_at ≤ commitWatermark f m dbOk := by
  cases m with
  | none => simp [commitWatermark]
  | some mx =>
    by_cases h : f.updated_at < mx
    · cases dbOk <;> simp [commitWatermark, h, le_of_lt h]
    · simp [commitWatermark, h]

/-- A sweep step never lowers updated_at, whatever the fetch outcome. -/
lemma le_sweepFeed (f : Feed) (r : FetchResult) (s : Nat → Bool) (dbOk : Bool) :
    f.updated_at ≤ (sweepFeed f r s dbOk).2 := by
  cases r with
  | ok items => exact le_commitWatermark f _ dbOk
  | fetchErr m => exact le_refl _
  | readErr m => exact le_refl _
  | parseErr m => exact le_refl _

/-- The sweep loop distributes over list append. -/
lemma sweep_append (fetch : String → FetchResult) (sOk : String → Nat → Bool)
    (dOk : String → Bool) (l1 l2 : List Feed) :
    sweep fetch sOk dOk (l1 ++ l2)
      = sweep fetch sOk dOk l1 ++ sweep fetch sOk dOk l2 := by
  induction l1 with
  | nil => rfl
  | cons f t ih => simp [sweep, ih]

/-- Feed used by the sweep counterexamples: watermark at the epoch. -/
def exFeedB : Feed := ⟨7, 42, "http://example.com/rss", "ExampleFeed", 0, 0⟩

/-- New item with resolved timestamp 1. -/
def exItemT1 : Item := ⟨some 1, some "first", some "http://example.com/1"⟩

/-- New item with resolved timestamp 2. -/
def exItemT2 : Item := ⟨some 2, some "second", some "http://example.com/2"⟩

/-- New item with resolved timestamp 5. -/
def exItemT5 : Item := ⟨some 5, some "late", some "http://example.com/5"⟩

/-- C1: the claim fails on the code.  With every delivery failing, the item
loop still records the failed item's timestamp in max_update_time, so the
watermark advances from 0 to 5 even though no notification was delivered;
the item will not be retried. -/
theorem failed_delivery_advances_watermark :
    ((processItems exFeedB (fun _ => false) 0 none [exItemT5]).1.all
        (fun a => !a.delivered)) = true
    ∧ (processItems exFeedB (fun _ => false) 0 none [exItemT5]).1 ≠ []
    ∧ commitWatermark exFeedB
        (processItems exFeedB (fun _ => false) 0 none [exItemT5]).2 true = 5
    ∧ (5 : Timestamp) ≠ exFeedB.updated_at := by
  exact ⟨rfl, by decide, rfl, by decide⟩

/-- C1 amended: the committed watermark is entirely independent of the
delivery outcomes — it advances to the maximum resolved timestamp over all
new items whether the sends succeeded or failed, so a failed item is not
retried on the next sweep. -/
theorem watermark_ignores_delivery (f : Feed) (items : List Item)
    (s1 s2 : Nat → Bool) (dbOk : Bool) :
    commitWatermark f (processItems f s1 0 none items).2 dbOk
      = commitWatermark f (processItems f s2 0 none items).2 dbOk := by
  rw [processItems_snd, processItems_snd]

/-- C3: for every feed and every sweep the committed watermark equals the
max fold of the resolved timestamps of the new items over the previous
updated_at, never moves backward for any fetch and commit outcome, and is
unchanged when no new item was found. -/
theorem watermark_monotone_max (f : Feed) (items : List Item) (sendOk : Nat → Bool)
    (r : FetchResult) (dbOk : Bool) :
    (sweepFeed f (.ok items) sendOk true).2
        = ((newItems f items).map resolvedDate).foldl max f.updated_at
    ∧ f.updated_at ≤ (sweepFeed f r sendOk dbOk).2
    ∧ (newItems f items = [] → (sweepFeed f (.ok items) sendOk true).2 = f.updated_at) := by
  refine ⟨?_, le_sweepFeed f r sendOk dbOk, ?_⟩
  · simpa [sweepFeed] using commitWatermark_processItems f sendOk items
  · intro h
    have := commitWatermark_processItems f sendOk items
    rw [h] at this
    simpa [sweepFeed] using this

/-- Witness feed for the C3 watermark theorem. -/
def exFeedC3 : Feed := ⟨14, 49, "http://example.com/c3", "C3Feed", 0, 10⟩

/-- Witness for watermark_monotone_max at a concrete feed, document and
oracles: one new item dated 20, one stale item dated 5. -/
theorem watermark_monotone_max_witness :
    (sweepFeed exFeedC3 (.ok [⟨some 20, none, none⟩, ⟨some 5, none, none⟩])
          (fun _ => true) true).2
        = ((newItems exFeedC3 [⟨some 20, none, none⟩, ⟨some 5, none, none⟩]).map
            resolvedDate).foldl max exFeedC3.updated_at
    ∧ exFeedC3.updated_at
        ≤ (sweepFeed exFeedC3 (.fetchErr "timeout") (fun _ => true) false).2
    ∧ (newItems exFeedC3 [⟨some 20, none, none⟩, ⟨some 5, none, none⟩] = [] →
        (sweepFeed exFeedC3 (.ok [⟨some 20, none, none⟩, ⟨some 5, none, none⟩])
          (fun _ => true) true).2 = exFeedC3.updated_at) :=
  watermark_monotone_max exFeedC3 [⟨some 20, none, none⟩, ⟨some 5, none, none⟩]
    (fun _ => true) (.fetchErr "timeout") false

/-- C4: the claim fails on the code.  With the document listing the later
item first, the loop attempts the notifications in document order: the T2
message precedes the T1 message although T1 < T2 and both are new; the two
messages differ, and the watermark still becomes T2. -/
theorem notify_order_counterexample :
    resolvedDate exItemT1 < resolvedDate exItemT2
    ∧ exFeedB.updated_at < resolvedDate exItemT1
    ∧ ((processItems exFeedB (fun _ => true) 0 none [exItemT2, exItemT1]).1.map
          NotifAttempt.message)
        = [formatMessage exFeedB.title exItemT2, formatMessage exFeedB.title exItemT1]
    ∧ formatMessage exFeedB.title exItemT2 ≠ formatMessage exFeedB.title exItemT1
    ∧ commitWatermark exFeedB
        (processItems exFeedB (fun _ => true) 0 none [exItemT2, exItemT1]).2 true = 2 := by
  exact ⟨by decide, by decide, rfl, by decide, rfl⟩

/-- C4 amended: within one feed's sweep the new items are notified in the
order in which they appear in the fetched document (the source never sorts
by timestamp), one attempted message per new item. -/
theorem notify_document_order (f : Feed) (items : List Item) (sendOk : Nat → Bool) :
    (processItems f sendOk 0 none items).1.map NotifAttempt.message
      = (newItems f items).map (formatMessage f.title) :=
  processItems_messages f sendOk items 0 none

/-- Item with no parsable publish date. -/
def exUndatedItem : Item := ⟨none, some "undated", some "http://example.com/u"⟩

/-- Feed whose watermark (equal to its created_at) lies before the epoch. -/
def exOldFeed : Feed := ⟨8, 43, "http://example.com/old", "OldFeed", -10, -10⟩

/-- C5: the claim fails on the code.  The substitute for a missing or
unparsable pub_date is the default timestamp, the Unix epoch, not the
earliest representable instant: for a feed whose updated_at (equal to its
created_at) lies before the epoch, the undated item is classified as new
and one notification is attempted. -/
theorem undated_item_counterexample :
    exOldFeed.created_at ≤ exOldFeed.updated_at
    ∧ resolvedDate exUndatedItem = 0
    ∧ exUndatedItem ∈ newItems exOldFeed [exUndatedItem]
    ∧ (processItems exOldFeed (fun _ => true) 0 none [exUndatedItem]).1.length = 1 := by
  exact ⟨by decide, rfl, by decide, rfl⟩

/-- C5 amended: an item with missing or unparsable pub_date resolves to the
epoch default, so for any feed whose updated_at is at least the epoch the
item is never classified as new, and the loop attempts nothing on a
document consisting of that item. -/
theorem undated_item_not_new (f : Feed) (i : Item) (items : List Item)
    (sendOk : Nat → Bool)
    (hdate : i.pubDateParsed = none) (hwm : 0 ≤ f.updated_at) :
    resolvedDate i = epochDefault
    ∧ i ∉ newItems f items
    ∧ processItems f sendOk 0 none [i] = ([], none) := by
  have hres : resolvedDate i = epochDefault := by simp [resolvedDate, hdate]
  have hlt : ¬ f.updated_at < resolvedDate i := by
    rw [hres]; exact not_lt.mpr hwm
  refine ⟨hres, ?_, ?_⟩
  · intro hmem
    exact hlt ((mem_newItems f items i).mp hmem).2
  · simp [processItems, hlt]

/-- Witness feed for the C5 amended theorem: watermark after the epoch. -/
def exFreshFeed : Feed := ⟨9, 44, "http://example.com/fresh", "FreshFeed", 3, 3⟩

/-- Witness for undated_item_not_new at a concrete feed and item. -/
theorem undated_item_not_new_witness :
    resolvedDate exUndatedItem = epochDefault
    ∧ exUndatedItem ∉ newItems exFreshFeed [exUndatedItem]
    ∧ processItems exFreshFeed (fun _ => true) 0 none [exUndatedItem] = ([], none) :=
  undated_item_not_new exFreshFeed exUndatedItem [exUndatedItem] (fun _ => true)
    rfl (by decide)

/-- C7: a fetch, read or parse failure for one feed leaves that feed with
no notification attempts and its updated_at unchanged, and the sweep still
processes every other feed exactly as it would have. -/
theorem sweep_isolates_feed_failure (fetch : String → FetchResult)
    (sOk : String → Nat → Bool) (dOk : String → Bool)
    (pre post : List Feed) (f : Feed) (msg : String)
    (h : fetch f.link = .fetchErr msg ∨ fetch f.link = .readErr msg
        ∨ fetch f.link = .parseErr msg) :
    sweep fetch sOk dOk (pre ++ f :: post)
      = sweep fetch sOk dOk pre ++ (f, [], f.updated_at) :: sweep fetch sOk dOk post := by
  rw [sweep_append]
  have hf : sweepFeed f (fetch f.link) (sOk f.link) (dOk f.link) = ([], f.updated_at) := by
    rcases h with h | h | h <;> rw [h] <;> rfl
  simp [sweep, hf]

/-- Feed whose url the witness fetch oracle rejects. -/
def exBadFeed : Feed := ⟨11, 46, "http://bad", "Bad", 0, 0⟩

/-- Healthy feed listed before the failing one. -/
def exGoodFeed1 : Feed := ⟨12, 47, "http://good1", "Good1", 0, 0⟩

/-- Healthy feed listed after the failing one. -/
def exGoodFeed2 : Feed := ⟨13, 48, "http://good2", "Good2", 0, 0⟩

/-- Witness fetch oracle: the bad url times out, everything else decodes to
an empty document. -/
def exFetch : String → FetchResult := fun link =>
  if link == "http://bad" then .fetchErr "timeout" else .ok []

/-- Witness for sweep_isolates_feed_failure on a three-feed sweep whose
middle feed fails to fetch. -/
theorem sweep_isolates_feed_failure_witness :
    sweep exFetch (fun _ _ => true) (fun _ => true)
        ([exGoodFeed1] ++ exBadFeed :: [exGoodFeed2])
      = sweep exFetch (fun _ _ => true) (fun _ => true) [exGoodFeed1]
          ++ (exBadFeed, [], exBadFeed.updated_at)
            :: sweep exFetch (fun _ _ => true) (fun _ => true) [exGoodFeed2] :=
  sweep_isolates_feed_failure exFetch (fun _ _ => true) (fun _ => true)
    [exGoodFeed1] [exGoodFeed2] exBadFeed "timeout" (Or.inl rfl)

/-- find? over an append whose first part yields nothing. -/
lemma find?_append_of_none {α : Type} (p : α → Bool) :
    ∀ (l1 l2 : List α), l1.find? p = none → (l1 ++ l2).find? p = l2.find? p := by
  intro l1
  induction l1 with
  | nil => intro l2 h; rfl
  | cons a t ih =>
    intro l2 h
    by_cases ha : p a
    · simp [List.find?_cons, ha] at h
    · simp only [List.find?_cons, ha] at h
      simp only [List.cons_append, List.find?_cons, ha]
      exact ih l2 h

/-- Database holding one chat that still owns one feed row. -/
def exDb2 : Db := ⟨[⟨1, 0⟩], [⟨10, 1, "http://example.com/feed", "Cascade", 0, 0⟩]⟩

/-- C2: the code contradicts the DeleteAccount command description.  The
migration declares ForeignKey-Feed-Chat with no ON DELETE action, and
delete_chat issues only Chat::delete_by_id, so for a chat that still owns a
feed the delete is rejected with a foreign-key violation, nothing is
removed, and the chat's feeds are still listed both scoped and unscoped. -/
theorem delete_chat_no_cascade :
    (delete_chat exDb2 1).2 = .error DbErr.foreignKeyViolation
    ∧ (delete_chat exDb2 1).1 = exDb2
    ∧ read_feed (delete_chat exDb2 1).1 1 ≠ []
    ∧ listAllFeeds (delete_chat exDb2 1).1 ≠ [] := by
  exact ⟨rfl, rfl, by decide, by decide⟩

/-- C6: the claim fails on the code.  A store failure while deciding the
registration state is met by expect: the is_not_subscribed filter panics
the handler task (the error branch here models the panic) instead of
answering with a reply. -/
theorem state_check_panic_counterexample :
    is_not_subscribed (.error "connection reset") = .error "Database Error" := rfl

/-- C6 amended: the command handlers answer a store failure with a generic
error reply and never panic, but the registration-state filter
is_not_subscribed panics on a store failure (the expect call). -/
theorem storage_error_handling (e : String) :
    unsubscribeHandler (.error e) = .ok (errorReply e)
    ∧ registerHandler (.error e) = .ok (registerErrReply e)
    ∧ is_not_subscribed (.error e) = .error "Database Error" :=
  ⟨rfl, rfl, rfl⟩

/-- C8: unsubscribe is scoped by both feed id and chat id.  When no stored
feed matches both, no row is deleted, the state is unchanged, the reply
reports zero deletions, and the listing of any other chat is untouched. -/
theorem delete_feed_scoped (db : Db) (fid cid c2 : Int)
    (hmatch : db.feeds.all (fun g => !(g.chat_id == cid && g.id == fid)) = true)
    (_hc2 : c2 ≠ cid) :
    (delete_feed db fid cid).2 = 0
    ∧ (delete_feed db fid cid).1 = db
    ∧ unsubscribeReply (delete_feed db fid cid).2 = "Deleted 0 feed"
    ∧ read_feed (delete_feed db fid cid).1 c2 = read_feed db c2 := by
  have hq : ∀ g ∈ db.feeds, (g.chat_id == cid && g.id == fid) = false := by
    intro g hg
    have h1 := List.all_eq_true.mp hmatch g hg
    revert h1
    cases g.chat_id == cid && g.id == fid <;> simp
  have hcount : db.feeds.countP (fun g => g.chat_id == cid && g.id == fid) = 0 := by
    rw [List.countP_eq_zero]
    intro g hg
    simp [hq g hg]
  have hfilter :
      db.feeds.filter (fun g => !(g.chat_id == cid && g.id == fid)) = db.feeds := by
    rw [List.filter_eq_self]
    intro g hg
    simp [hq g hg]
  have hstate : (delete_feed db fid cid).1 = db := by
    show (⟨db.chats, db.feeds.filter _⟩ : Db) = db
    rw [hfilter]
  refine ⟨?_, hstate, ?_, by rw [hstate]⟩
  · exact hcount
  · show unsubscribeReply (db.feeds.countP _) = "Deleted 0 feed"
    rw [hcount]
    rfl

/-- Database with one feed owned by chat 9, used by the C8 witness. -/
def exDb8 : Db := ⟨[⟨9, 0⟩], [⟨3, 9, "http://example.com/f3", "Owned", 0, 0⟩]⟩

/-- Witness for delete_feed_scoped: chat 5 tries to delete feed 3, which
belongs to chat 9. -/
theorem delete_feed_scoped_witness :
    (delete_feed exDb8 3 5).2 = 0
    ∧ (delete_feed exDb8 3 5).1 = exDb8
    ∧ unsubscribeReply (delete_feed exDb8 3 5).2 = "Deleted 0 feed"
    ∧ read_feed (delete_feed exDb8 3 5).1 9 = read_feed exDb8 9 :=
  delete_feed_scoped exDb8 3 5 9 (by decide) (by decide)

/-- C9: registering the same chat id twice.  The second insert hits the
primary key, fails with the duplicate-key error and leaves the state
unchanged; the stored chat still carries the first registration's
created_at. -/
theorem register_twice_duplicate (db : Db) (id : Int) (t1 t2 : Timestamp) (c1 : Chat)
    (h : (create_chat db id t1).2 = .ok c1) :
    (create_chat (create_chat db id t1).1 id t2).2 = .error DbErr.duplicateKey
    ∧ (create_chat (create_chat db id t1).1 id t2).1 = (create_chat db id t1).1
    ∧ chatFindById (create_chat db id t1).1 id = some c1
    ∧ c1.created_at = t1 := by
  by_cases hdup : db.chats.any (fun c => c.id == id)
  · simp [create_chat, hdup] at h
  · simp only [create_chat, hdup, if_neg, Bool.false_eq_true, if_false] at h
    simp only [Except.ok.injEq] at h
    subst h
    have hany : ((db.chats ++ [(⟨id, t1⟩ : Chat)]).any (fun c => c.id == id)) = true := by
      simp [List.any_append]
    have hnone : db.chats.find? (fun c => c.id == id) = none := by
      rw [List.find?_eq_none]
      intro c hc hcid
      exact hdup (List.any_eq_true.mpr ⟨c, hc, hcid⟩)
    refine ⟨?_, ?_, ?_, rfl⟩
    · simp [create_chat, hdup, hany]
    · simp [create_chat, hdup, hany]
    · have h1 : (create_chat db id t1).1
          = (⟨db.chats ++ [(⟨id, t1⟩ : Chat)], db.feeds⟩ : Db) := by
        simp [create_chat, hdup]
      rw [h1]
      unfold chatFindById
      rw [find?_append_of_none _ _ _ hnone]
      simp [List.find?_cons]

/-- Empty database used by the C9 witness. -/
def exDb9 : Db := ⟨[], []⟩

/-- Witness for register_twice_duplicate: chat 7 registers at time 100 and
again at time 200. -/
theorem register_twice_duplicate_witness :
    (create_chat (create_chat exDb9 7 100).1 7 200).2 = .error DbErr.duplicateKey
    ∧ (create_chat (create_chat exDb9 7 100).1 7 200).1 = (create_chat exDb9 7 100).1
    ∧ chatFindById (create_chat exDb9 7 100).1 7 = some ⟨7, 100⟩
    ∧ (⟨7, 100⟩ : Chat).created_at = 100 :=
  register_twice_duplicate exDb9 7 100 200 ⟨7, 100⟩ rfl

/-- Database whose feed rows come back with the id-2 row first. -/
def exDb10 : Db := ⟨[⟨5, 0⟩],
  [⟨2, 5, "http://example.com/b", "B", 0, 0⟩, ⟨1, 5, "http://example.com/a", "A", 0, 0⟩]⟩

/-- C10: the claim fails on the code.  read_feed issues no ORDER BY, so the
rows come back in the store's own order; with the store returning the id-2
row first the listing is not ascending by id and the reply lists the id-2
line first. -/
theorem list_not_sorted_counterexample :
    (read_feed exDb10 5).map Feed.id = [2, 1]
    ∧ ¬ List.Pairwise (fun a b : Int => a ≤ b) ((read_feed exDb10 5).map Feed.id)
    ∧ listReply (read_feed exDb10 5) = "2 - B\n1 - A" := by
  refine ⟨by decide, by decide, rfl⟩

/-- C10 amended: read_feed returns exactly the feeds owned by the chat, as
a subsequence of the store's row order (no ORDER BY is issued, so ascending
ids are not guaranteed), and the reply is one id - title line per returned
feed, joined by newlines, in that order. -/
theorem list_feeds_store_order (db : Db) (cid : Int) :
    (read_feed db cid).Sublist db.feeds
    ∧ (∀ g, g ∈ read_feed db cid ↔ g ∈ db.feeds ∧ g.chat_id = cid)
    ∧ listReply (read_feed db cid)
        = String.intercalate "\n"
            ((read_feed db cid).map (fun g => toString g.id ++ " - " ++ g.title)) := by
  refine ⟨List.filter_sublist _, ?_, rfl⟩
  intro g
  simp [read_feed]

end MultitudeBot
